import Mathlib

/-!
Shallow embedding of the dex2com synchronization engine.

Source files:
  * src/src/syncer.js      — class Dex2ComSyncer (sync cycle, dedup ledger, daemon loop)
  * src/unnamed/part_000   — class DexcomClient (authenticate, readGlucoseValues,
                             writeGlucoseValues, session-expiry self-healing)

Timestamps and ledger keys are modelled as Int (JS numbers used only at integral
values here); the JS Set of synced timestamps is modelled as an insertion-ordered
duplicate-free list, matching JS Set iteration semantics.  Remote I/O is modelled
by an environment of response oracles indexed by how many requests of that kind
the client has issued so far.
-/

/-- Digit-run accumulator: parseInt on a string of decimal digits
(value of match[0] in syncer.js line 46). -/
def parseDigits (cs : List Char) : Nat :=
  cs.foldl (fun acc c => acc * 10 + (c.toNat - '0'.toNat)) 0

/-- First maximal run of decimal digits in a character list, if any digit occurs:
the semantics of the JS regex match /\d+/ (syncer.js line 45). -/
def firstDigitRun : List Char → Option (List Char)
  | [] => none
  | c :: rest =>
      if c.isDigit then some (c :: rest.takeWhile Char.isDigit)
      else firstDigitRun rest

/-- Dex2ComSyncer.extractTimestamp (syncer.js lines 44-47):
`const match = dexcomDate.match(/\d+/); return match ? parseInt(match[0]) : 0;`. -/
def extractTimestamp (dexcomDate : String) : Int :=
  match firstDigitRun dexcomDate.data with
  | some ds => (parseDigits ds : Nat)
  | none => 0

/-- A glucose reading as returned by the Dexcom Share read endpoint, with the
fields the syncer touches (syncer.js lines 81-102): WT (received timestamp
encoding), Trend, ST, DT, Value. -/
structure Reading where
  Trend : String
  ST : String
  DT : String
  WT : String
  Value : Int
deriving DecidableEq

/-- A record projected for upload (syncer.js lines 97-102): Trend, ST, DT, Value;
WT is dropped from the payload. -/
structure Egv where
  Trend : String
  ST : String
  DT : String
  Value : Int
deriving DecidableEq

/-- Dex2ComSyncer.sync's result object (syncer.js lines 54-60). -/
structure SyncResult where
  success : Bool
  readCount : Nat
  writeCount : Nat
  skippedCount : Nat
  errors : List String
deriving DecidableEq

/-- Projection of a reading to the upload payload (syncer.js lines 97-102). -/
def projectEgv (r : Reading) : Egv :=
  { Trend := r.Trend, ST := r.ST, DT := r.DT, Value := r.Value }

/-- 24 hours in milliseconds (syncer.js line 139). -/
def dayMs : Int := 24 * 60 * 60 * 1000

/-- JS `Set.add` on the insertion-ordered ledger: append the key if absent
(syncer.js line 111). -/
def ledgerAdd (ledger : List Int) (k : Int) : List Int :=
  if k ∈ ledger then ledger else ledger ++ [k]

/-- Dex2ComSyncer.cleanupOldTimestamps (syncer.js lines 138-150): keep exactly
the timestamps strictly greater than now minus 24 hours. -/
def cleanupOldTimestamps (now : Int) (ledger : List Int) : List Int :=
  ledger.filter (fun ts => decide (now - dayMs < ts))

/-- Outcome of one sync cycle: the result object, the ledger
(this.syncedTimestamps) after the cycle, and the batch passed to the
destination write call, if that call was made. -/
structure CycleOutcome where
  result : SyncResult
  ledger : List Int
  writeCall : Option (List Egv)
deriving DecidableEq

/-- Dex2ComSyncer.sync (syncer.js lines 53-133), with the two awaited remote
calls abstracted to their outcomes: readOutcome is what
sourceClient.readGlucoseValues produced (a list of readings, or the message of
the error it threw), writeOutcome is what destClient.writeGlucoseValues produced
for the batch (success, or the message of the error it threw), and now is
Date.now() at the cleanup step.  Any thrown error is caught at the bottom of
sync and pushed onto result.errors (lines 127-130). -/
def sync (ledger : List Int) (now : Int)
    (readOutcome : Except String (List Reading))
    (writeOutcome : Except String Unit) : CycleOutcome :=
  match readOutcome with
  | Except.error msg =>
      { result := { success := false, readCount := 0, writeCount := 0,
                    skippedCount := 0, errors := [msg] },
        ledger := ledger, writeCall := none }
  | Except.ok readings =>
      if readings.length = 0 then
        { result := { success := true, readCount := readings.length, writeCount := 0,
                      skippedCount := 0, errors := [] },
          ledger := ledger, writeCall := none }
      else
        let newReadings := readings.filter
          (fun r => ! decide (extractTimestamp r.WT ∈ ledger))
        if newReadings.length = 0 then
          { result := { success := true, readCount := readings.length, writeCount := 0,
                        skippedCount := readings.length - newReadings.length, errors := [] },
            ledger := ledger, writeCall := none }
        else
          let egvs := newReadings.map projectEgv
          match writeOutcome with
          | Except.error msg =>
              { result := { success := false, readCount := readings.length, writeCount := 0,
                            skippedCount := readings.length - newReadings.length,
                            errors := [msg] },
                ledger := ledger, writeCall := some egvs }
          | Except.ok _ =>
              { result := { success := true, readCount := readings.length,
                            writeCount := egvs.length,
                            skippedCount := readings.length - newReadings.length,
                            errors := [] },
                ledger := cleanupOldTimestamps now
                  (newReadings.foldl (fun acc r => ledgerAdd acc (extractTimestamp r.WT)) ledger),
                writeCall := some egvs }

/-- A reading whose timestamp encoding is the given WT string; the other fields
are fixed since sync's control flow never inspects them. -/
def mkReading (wt : String) : Reading :=
  { Trend := "Flat", ST := wt, DT := wt, WT := wt, Value := 100 }

example : extractTimestamp "/Date(1234567890000)/" = 1234567890000 := by decide
example : extractTimestamp "nodigits" = 0 := by decide
example :
    (sync [100, 200] 0
      (Except.ok [mkReading "/Date(100)/", mkReading "/Date(200)/", mkReading "/Date(300)/",
                  mkReading "/Date(400)/", mkReading "/Date(500)/"])
      (Except.ok ())).ledger = [100, 200, 300, 400, 500] := by decide

/-- Scan for pat as a contiguous run starting at any position of the second
list. -/
def strContainsAux (pat : List Char) : List Char → Bool
  | [] => pat.isEmpty
  | c :: rest => pat.isPrefixOf (c :: rest) || strContainsAux pat rest

/-- Substring test, the semantics of JS String.prototype.includes as used in
dexcom-client's expiry-marker checks. -/
def strContains (s pat : String) : Bool :=
  strContainsAux pat.data s.data

/-- An HTTP response as the client observes it (part_000 lines 39-52), with the
body pre-parsed the ways the client parses it: text is response.text(); code and
message are the Code and Message fields when the body parses as a JSON error
object (none otherwise, and none stands for a missing or empty field, which JS
optional chaining and falsy-or treat alike); jsonArray is the body parsed as a
JSON array of readings, when it is one. -/
structure SrvResponse where
  status : Nat
  text : String
  code : Option String
  message : Option String
  jsonArray : Option (List Reading)

/-- response.ok (part_000 line 42): 200 ≤ status < 300. -/
def respOk (r : SrvResponse) : Bool :=
  decide (200 ≤ r.status) && decide (r.status < 300)

/-- Oracle for the remote service: the response to the nth request of each kind
issued by one client (the nth call of AuthenticatePublisherAccount,
LoginPublisherAccountById, ReadPublisherLatestGlucoseValues,
PostReceiverEgvRecords respectively). -/
structure Env where
  authResp : Nat → SrvResponse
  loginResp : Nat → SrvResponse
  readResp : Nat → SrvResponse
  writeResp : Nat → SrvResponse

/-- The session-relevant state of one DexcomClient (part_000 lines 26-27)
together with request counters (nAuth, nLogin, nRead, nWrite), a modelling
artifact recording how many requests of each kind the client has issued, used
both to index the Env oracle and to state trace properties. -/
structure CState where
  sessionId : Option String
  accountId : Option String
  nAuth : Nat
  nLogin : Nat
  nRead : Nat
  nWrite : Nat
deriving DecidableEq

/-- DexcomClient's constructor (part_000 lines 20-28): sessionId and accountId
are both null at construction; no requests have been issued. -/
def DexcomClient.init : CState :=
  { sessionId := none, accountId := none, nAuth := 0, nLogin := 0, nRead := 0, nWrite := 0 }

/-- The regex replace(/"/g, '') applied to token responses
(part_000 lines 100 and 120). -/
def stripQuotes (s : String) : String :=
  { data := s.data.filter (fun c => ! decide (c = '"')) }

/-- The all-zero sentinel UUID (part_000 lines 102 and 122). -/
def zeroUuid : String := "00000000-0000-0000-0000-000000000000"

/-- Body of the try block of DexcomClient.authenticate (part_000 lines 85-126):
account-authenticate when accountId is unset (storing the token even when it is
the all-zero sentinel, since the assignment precedes the check), then
session-login; each failure is thrown with the message shown. -/
def authenticateCore (env : Env) (st : CState) : Except String String × CState :=
  let login : CState → Except String String × CState := fun st =>
    let resp := env.loginResp st.nLogin
    let st := { st with nLogin := st.nLogin + 1 }
    if ! respOk resp then
      (Except.error ("Session login failed: " ++ toString resp.status), st)
    else
      let sid := stripQuotes resp.text
      let st := { st with sessionId := some sid }
      if sid = zeroUuid then (Except.error "Login failed", st)
      else (Except.ok sid, st)
  match st.accountId with
  | some _ => login st
  | none =>
      let resp := env.authResp st.nAuth
      let st := { st with nAuth := st.nAuth + 1 }
      if ! respOk resp then
        (Except.error ("Account authentication failed: " ++ toString resp.status), st)
      else
        let aid := stripQuotes resp.text
        let st := { st with accountId := some aid }
        if aid = zeroUuid then (Except.error "Invalid credentials", st)
        else login st

/-- DexcomClient.authenticate (part_000 lines 84-130): the try body wrapped by
the catch that rethrows every error with the prefix shown (lines 127-129). -/
def authenticate (env : Env) (st : CState) : Except String String × CState :=
  match authenticateCore env st with
  | (Except.error m, st) => (Except.error ("Authentication error: " ++ m), st)
  | (Except.ok v, st) => (Except.ok v, st)

/-- The session-expiry predicate of the 500-status branches
(part_000 lines 151-153 and 215-217): a structured Code of SessionIdNotFound, or
an error message containing an inactivity or timeout substring. -/
def respSessionError (code : Option String) (msg : String) : Bool :=
  decide (code = some "SessionIdNotFound")
    || strContains msg "Session not active"
    || strContains msg "timed out"

/-- The session-expiry predicate of the catch blocks
(part_000 lines 175-177 and 234-236), applied to a thrown error's message. -/
def msgSessionError (msg : String) : Bool :=
  strContains msg "SessionIdNotFound"
    || strContains msg "Session not active"
    || strContains msg "timed out"

/-- DexcomClient.readGlucoseValues (part_000 lines 138-187).  The unbounded JS
self-recursion after expiry healing is given explicit fuel: each recursive
retry consumes one unit, and exhausted fuel yields a distinguished error that no
theorem's scenario reaches.  State updates mirror the source exactly: the
session guard runs outside the try; inside the try, a 500 with an expiry marker
clears both tokens, reauthenticates and recurses (and any error thrown inside
the try, including by that reauthentication or recursion, flows to the catch);
the catch retries the same way when the thrown message carries an expiry
marker, and rethrows otherwise. -/
def readGlucoseValues (env : Env) : Nat → CState → Except String (List Reading) × CState
  | 0, st => (Except.error "RetryFuelExhausted", st)
  | Nat.succ fuel, st =>
      let afterGuard : Except String Unit × CState :=
        match st.sessionId with
        | none =>
            (match authenticate env st with
             | (Except.error m, st) => (Except.error m, st)
             | (Except.ok _, st) => (Except.ok (), st))
        | some _ => (Except.ok (), st)
      match afterGuard with
      | (Except.error m, st) => (Except.error m, st)
      | (Except.ok _, st) =>
          let resp := env.readResp st.nRead
          let st := { st with nRead := st.nRead + 1 }
          let tryResult : Except String (List Reading) × CState :=
            if resp.status = 500 then
              let errorMessage := resp.message.getD "Unknown"
              if respSessionError resp.code errorMessage then
                let st := { st with sessionId := none, accountId := none }
                match authenticate env st with
                | (Except.error m, st) => (Except.error m, st)
                | (Except.ok _, st) => readGlucoseValues env fuel st
              else (Except.error ("Server error: " ++ errorMessage), st)
            else if ! respOk resp then
              (Except.error ("Failed to get readings: " ++ toString resp.status), st)
            else
              match resp.jsonArray with
              | none => (Except.ok [], st)
              | some rs => (Except.ok rs, st)
          match tryResult with
          | (Except.ok v, st) => (Except.ok v, st)
          | (Except.error m, st) =>
              if msgSessionError m then
                let st := { st with sessionId := none, accountId := none }
                match authenticate env st with
                | (Except.error m2, st) => (Except.error m2, st)
                | (Except.ok _, st) => readGlucoseValues env fuel st
              else (Except.error m, st)

/-- DexcomClient.writeGlucoseValues (part_000 lines 195-246), modelled exactly
like readGlucoseValues; on a 500 the error message falls back to the raw
response text rather than the string Unknown (line 214), and success returns
true (line 232).  The uploaded payload does not influence control flow, so it is
not a parameter of the model. -/
def writeGlucoseValues (env : Env) : Nat → CState → Except String Bool × CState
  | 0, st => (Except.error "RetryFuelExhausted", st)
  | Nat.succ fuel, st =>
      let afterGuard : Except String Unit × CState :=
        match st.sessionId with
        | none =>
            (match authenticate env st with
             | (Except.error m, st) => (Except.error m, st)
             | (Except.ok _, st) => (Except.ok (), st))
        | some _ => (Except.ok (), st)
      match afterGuard with
      | (Except.error m, st) => (Except.error m, st)
      | (Except.ok _, st) =>
          let resp := env.writeResp st.nWrite
          let st := { st with nWrite := st.nWrite + 1 }
          let tryResult : Except String Bool × CState :=
            if resp.status = 500 then
              let errorMessage := resp.message.getD resp.text
              if respSessionError resp.code errorMessage then
                let st := { st with sessionId := none, accountId := none }
                match authenticate env st with
                | (Except.error m, st) => (Except.error m, st)
                | (Except.ok _, st) => writeGlucoseValues env fuel st
              else (Except.error ("Server error: " ++ errorMessage), st)
            else if ! respOk resp then
              (Except.error
                ("Failed to write readings: " ++ toString resp.status ++ " - " ++ resp.text), st)
            else (Except.ok true, st)
          match tryResult with
          | (Except.ok v, st) => (Except.ok v, st)
          | (Except.error m, st) =>
              if msgSessionError m then
                let st := { st with sessionId := none, accountId := none }
                match authenticate env st with
                | (Except.error m2, st) => (Except.error m2, st)
                | (Except.ok _, st) => writeGlucoseValues env fuel st
              else (Except.error m, st)

/-- Scheduling model of Dex2ComSyncer.runDaemon (syncer.js lines 172-176): the
sync cycles started by setInterval.  Node's setInterval fires its callback every
intervalMs at a fixed rate and does not await the async callback, so the cycle
started by tick i begins at i * intervalMs after the timer was installed,
irrespective of whether any earlier cycle has completed. -/
def cycleStart (intervalMs i : Nat) : Nat :=
  i * intervalMs

/-- Two consecutive setInterval cycles overlap when the next tick fires before
the cycle started at tick i (whose wall-clock duration is dur i) has finished. -/
def cyclesOverlap (intervalMs : Nat) (dur : Nat → Nat) (i : Nat) : Prop :=
  cycleStart intervalMs (i + 1) < cycleStart intervalMs i + dur i

/-- The five readings of the dedup scenario, with derived keys
100, 200, 300, 400, 500. -/
def scenarioReadings : List Reading :=
  [mkReading "/Date(100)/", mkReading "/Date(200)/", mkReading "/Date(300)/",
   mkReading "/Date(400)/", mkReading "/Date(500)/"]

/-- The key-derivation rule as the specification words it: the first run of
decimal digits of the input, parsed as an integer, and 0 when the string
contains no decimal digit.  Stated independently of extractTimestamp, to be
compared with it. -/
def claimDerivedKey (s : String) : Int :=
  let ds := (s.data.dropWhile (fun c => ! c.isDigit)).takeWhile Char.isDigit
  if ds.isEmpty then 0 else (parseDigits ds : Nat)

/-- A remote that answers the first account-authenticate with token A and the
first login with token S, then replies 500 SessionIdNotFound to every read and
refuses (503) every further account-authenticate. -/
def envExpiryAuthFail : Env :=
  { authResp := fun n =>
      if n = 0 then { status := 200, text := "\"A\"", code := none, message := none, jsonArray := none }
      else { status := 503, text := "", code := none, message := none, jsonArray := none },
    loginResp := fun _ =>
      { status := 200, text := "\"S\"", code := none, message := none, jsonArray := none },
    readResp := fun _ =>
      { status := 500, text := "", code := some "SessionIdNotFound", message := none, jsonArray := none },
    writeResp := fun _ =>
      { status := 200, text := "", code := none, message := none, jsonArray := none } }

/-- A remote whose first read replies 500 SessionIdNotFound and whose second
read succeeds with one reading; authentication always succeeds. -/
def envRecovery : Env :=
  { authResp := fun _ =>
      { status := 200, text := "\"ACCT\"", code := none, message := none, jsonArray := none },
    loginResp := fun _ =>
      { status := 200, text := "\"SESH2\"", code := none, message := none, jsonArray := none },
    readResp := fun n =>
      if n = 0 then
        { status := 500, text := "", code := some "SessionIdNotFound",
          message := some "Session expired", jsonArray := none }
      else
        { status := 200, text := "", code := none, message := none,
          jsonArray := some [mkReading "/Date(42)/"] },
    writeResp := fun n =>
      if n = 0 then
        { status := 500, text := "", code := some "SessionIdNotFound",
          message := some "Session expired", jsonArray := none }
      else
        { status := 200, text := "", code := none, message := none, jsonArray := none } }

/-- A client that already holds a live-looking session and has issued one
authenticate+login pair. -/
def stRecovery : CState :=
  { sessionId := some "S", accountId := some "A", nAuth := 1, nLogin := 1, nRead := 0, nWrite := 0 }

/-- A remote whose account-authenticate returns the all-zero sentinel UUID. -/
def envZeroAuth : Env :=
  { authResp := fun _ =>
      { status := 200, text := "\"00000000-0000-0000-0000-000000000000\"",
        code := none, message := none, jsonArray := none },
    loginResp := fun _ =>
      { status := 200, text := "\"SESH\"", code := none, message := none, jsonArray := none },
    readResp := fun _ =>
      { status := 200, text := "", code := none, message := none, jsonArray := some [] },
    writeResp := fun _ =>
      { status := 200, text := "", code := none, message := none, jsonArray := none } }

/-- A remote whose write endpoint replies 500 with the non-expiry message
Unexpected; everything else succeeds. -/
def envWriteFail : Env :=
  { authResp := fun _ =>
      { status := 200, text := "\"ACCT\"", code := none, message := none, jsonArray := none },
    loginResp := fun _ =>
      { status := 200, text := "\"SESH\"", code := none, message := none, jsonArray := none },
    readResp := fun _ =>
      { status := 200, text := "", code := none, message := none, jsonArray := some [] },
    writeResp := fun _ =>
      { status := 500, text := "boom", code := none, message := some "Unexpected", jsonArray := none } }

/-!  Theorems.  -/

theorem length_filter_not_eq_sub {α : Type} (p : α → Bool) (l : List α) :
    l.length - (l.filter fun a => ! p a).length = (l.filter p).length := by
  induction l with
  | nil => rfl
  | cons a t ih =>
      have hle := List.length_filter_le (fun a => ! p a) t
      cases h : p a <;> simp [List.filter_cons, h] <;> omega

theorem sync_skippedCount (L : List Int) (now : Int) (rs : List Reading)
    (w : Except String Unit) :
    (sync L now (Except.ok rs) w).result.skippedCount
      = (rs.filter fun r => decide (extractTimestamp r.WT ∈ L)).length := by
  have hsub := length_filter_not_eq_sub (fun r => decide (extractTimestamp r.WT ∈ L)) rs
  unfold sync
  by_cases h0 : rs.length = 0
  · have : rs = [] := List.length_eq_zero.mp h0
    subst this
    simp
  · simp only [h0, if_false]
    by_cases h1 : (rs.filter fun r => ! decide (extractTimestamp r.WT ∈ L)).length = 0
    · simpa [h1] using hsub
    · cases w <;> simpa [h1] using hsub

theorem sync_writeCall_batch (L : List Int) (now : Int) (rs : List Reading)
    (w : Except String Unit) (b : List Egv)
    (hb : (sync L now (Except.ok rs) w).writeCall = some b) :
    b = (rs.filter fun r => ! decide (extractTimestamp r.WT ∈ L)).map projectEgv := by
  revert hb
  unfold sync
  by_cases h0 : rs.length = 0
  · simp [h0]
  · simp only [h0, if_false]
    by_cases h1 : (rs.filter fun r => ! decide (extractTimestamp r.WT ∈ L)).length = 0
    · simp [h1]
    · cases w <;> simp [h1] <;> intro h <;> exact h.symm

/-- C9: for every cycle whose source read returns zero readings, the result is
exactly success with all counts zero and no errors, the destination write is
not called, and the ledger is untouched. -/
theorem empty_source_trivial_success (ledger : List Int) (now : Int)
    (w : Except String Unit) :
    sync ledger now (Except.ok []) w =
      { result := { success := true, readCount := 0, writeCount := 0,
                    skippedCount := 0, errors := [] },
        ledger := ledger, writeCall := none } := rfl

/-- C8: pruning retains exactly the keys strictly newer than now minus 24
hours; hence a key T present in the ledger survives a prune at any time
earlier than T plus 24 hours and is gone from a prune at any time T plus 24
hours plus a positive epsilon or later. -/
theorem ledger_pruning_boundary (ledger : List Int) (T : Int) (hT : T ∈ ledger) :
    (∀ now : Int, now < T + dayMs → T ∈ cleanupOldTimestamps now ledger)
    ∧ (∀ now ε : Int, 0 < ε → T + dayMs + ε ≤ now → T ∉ cleanupOldTimestamps now ledger)
    ∧ (∀ (now k : Int) (L : List Int),
        k ∈ cleanupOldTimestamps now L ↔ k ∈ L ∧ now - dayMs < k) := by
  refine ⟨?_, ?_, ?_⟩
  · intro now h
    simp only [cleanupOldTimestamps, List.mem_filter, decide_eq_true_eq]
    exact ⟨hT, by omega⟩
  · intro now ε hε h
    simp only [cleanupOldTimestamps, List.mem_filter, decide_eq_true_eq]
    intro hc
    omega
  · intro now k L
    simp [cleanupOldTimestamps, List.mem_filter]

/-- C8 witness: key 42 in a singleton ledger survives a prune one millisecond
before expiry and is gone at one millisecond past 24 hours. -/
theorem ledger_pruning_boundary_witness :
    42 ∈ cleanupOldTimestamps (42 + dayMs - 1) [42]
    ∧ 42 ∉ cleanupOldTimestamps (42 + dayMs + 1) [42] :=
  ⟨(ledger_pruning_boundary [42] 42 (by decide)).1 (42 + dayMs - 1) (by norm_num [dayMs]),
   (ledger_pruning_boundary [42] 42 (by decide)).2.1 (42 + dayMs + 1) 1 (by norm_num)
     (by norm_num)⟩

/-- C4: the daemon's setInterval fires at a fixed rate without awaiting the
async cycle, so with the default 5-minute interval a cycle lasting 6 minutes is
still running when the next tick starts the next cycle — two cycles are in
flight at once, contradicting the required non-overlap guarantee. -/
theorem daemon_tick_overlap : cyclesOverlap 300000 (fun _ => 360000) 0 := by
  show cycleStart 300000 (0 + 1) < cycleStart 300000 0 + 360000
  norm_num [cycleStart]

/-- C1: every reading of the batch handed to the destination write is the
projection of a source reading whose derived key was not in the ledger — a
ledgered reading is never re-transferred — and skippedCount counts exactly the
readings whose key was already ledgered; on the five-reading scenario with keys
100..500 and ledger containing 100 and 200, the cycle reports readCount 5,
skippedCount 2, writeCount 3, and after the successful write the ledger holds
exactly the three new keys in addition. -/
theorem dedup_guarantee :
    (∀ (ledger : List Int) (now : Int) (readings : List Reading)
        (w : Except String Unit) (b : List Egv),
      ((sync ledger now (Except.ok readings) w).writeCall = some b →
        ∀ e ∈ b, ∃ r, r ∈ readings ∧ extractTimestamp r.WT ∉ ledger ∧ e = projectEgv r)
      ∧ (sync ledger now (Except.ok readings) w).result.skippedCount
          = (readings.filter fun r => decide (extractTimestamp r.WT ∈ ledger)).length)
    ∧ sync [100, 200] 0 (Except.ok scenarioReadings) (Except.ok ()) =
        { result := { success := true, readCount := 5, writeCount := 3,
                      skippedCount := 2, errors := [] },
          ledger := [100, 200, 300, 400, 500],
          writeCall := some [projectEgv (mkReading "/Date(300)/"),
                             projectEgv (mkReading "/Date(400)/"),
                             projectEgv (mkReading "/Date(500)/")] } := by
  constructor
  · intro ledger now readings w b
    constructor
    · intro hb e he
      have hbatch := sync_writeCall_batch ledger now readings w b hb
      subst hbatch
      rcases List.mem_map.mp he with ⟨r, hr, hre⟩
      rcases List.mem_filter.mp hr with ⟨hmem, hkey⟩
      refine ⟨r, hmem, ?_, hre.symm⟩
      simpa using hkey
    · exact sync_skippedCount ledger now readings w
  · decide

/-- C1 witness: on the concrete scenario batch, the projection of the reading
with key 300 is in the write batch and indeed stems from a non-ledgered source
reading. -/
theorem dedup_guarantee_witness :
    ∃ r, r ∈ scenarioReadings ∧ extractTimestamp r.WT ∉ ([100, 200] : List Int)
      ∧ projectEgv (mkReading "/Date(300)/") = projectEgv r :=
  ((dedup_guarantee.1 [100, 200] 0 scenarioReadings (Except.ok ())
      [projectEgv (mkReading "/Date(300)/"), projectEgv (mkReading "/Date(400)/"),
       projectEgv (mkReading "/Date(500)/")]).1
    (by decide) (projectEgv (mkReading "/Date(300)/")) (by decide))

theorem sync_write_error_ledger (L : List Int) (now : Int) (rs : List Reading)
    (msg : String) :
    (sync L now (Except.ok rs) (Except.error msg)).ledger = L := by
  unfold sync
  by_cases h0 : rs.length = 0
  · simp [h0]
  · simp only [h0, if_false]
    by_cases h1 : (rs.filter fun r => ! decide (extractTimestamp r.WT ∈ L)).length = 0
    · simp [h1]
    · simp [h1]

theorem sync_write_error_result (L : List Int) (now : Int) (rs : List Reading)
    (msg : String)
    (h : (sync L now (Except.ok rs) (Except.error msg)).writeCall ≠ none) :
    (sync L now (Except.ok rs) (Except.error msg)).result.success = false
    ∧ (sync L now (Except.ok rs) (Except.error msg)).result.errors = [msg] := by
  revert h
  unfold sync
  by_cases h0 : rs.length = 0
  · simp [h0]
  · simp only [h0, if_false]
    by_cases h1 : (rs.filter fun r => ! decide (extractTimestamp r.WT ∈ L)).length = 0
    · simp [h1]
    · simp [h1]

/-- C2: a destination write answered 500 with the non-expiry message Unexpected
makes writeGlucoseValues throw exactly Server error: Unexpected (no retry, no
token change beyond the request counter); a cycle whose write throws any
message leaves the ledger unchanged, and when the write was actually attempted
the cycle reports success false with that message as its only error. -/
theorem write_failure_atomicity (env : Env) (st : CState) (sid t : String)
    (fuel : Nat)
    (hs : st.sessionId = some sid)
    (hw : env.writeResp st.nWrite =
      { status := 500, text := t, code := none,
        message := some "Unexpected", jsonArray := none }) :
    writeGlucoseValues env (fuel + 1) st =
      (Except.error "Server error: Unexpected", { st with nWrite := st.nWrite + 1 })
    ∧ ∀ (ledger : List Int) (now : Int) (readings : List Reading),
        (sync ledger now (Except.ok readings) (Except.error "Server error: Unexpected")).ledger
          = ledger
        ∧ ((sync ledger now (Except.ok readings)
              (Except.error "Server error: Unexpected")).writeCall ≠ none →
            (sync ledger now (Except.ok readings)
              (Except.error "Server error: Unexpected")).result.success = false
            ∧ (sync ledger now (Except.ok readings)
                (Except.error "Server error: Unexpected")).result.errors
              = ["Server error: Unexpected"]) := by
  constructor
  · have happ : "Server error: " ++ "Unexpected" = "Server error: Unexpected" := rfl
    have hexp : respSessionError none "Unexpected" = false := by decide
    have hcatch : msgSessionError "Server error: Unexpected" = false := by decide
    simp only [writeGlucoseValues, hs, hw]
    simp [hexp, happ, hcatch]
  · intro ledger now readings
    exact ⟨sync_write_error_ledger ledger now readings _,
           sync_write_error_result ledger now readings _⟩

/-- C2 witness: the concrete failing remote at a freshly authenticated client,
and a concrete one-reading cycle whose write fails. -/
theorem write_failure_atomicity_witness :
    writeGlucoseValues envWriteFail 1
        { sessionId := some "SESH", accountId := some "ACCT",
          nAuth := 1, nLogin := 1, nRead := 0, nWrite := 0 } =
      (Except.error "Server error: Unexpected",
       { sessionId := some "SESH", accountId := some "ACCT",
         nAuth := 1, nLogin := 1, nRead := 0, nWrite := 1 })
    ∧ (sync [] 0 (Except.ok [mkReading "/Date(300)/"])
        (Except.error "Server error: Unexpected")).ledger = [] := by
  have h := write_failure_atomicity envWriteFail
    { sessionId := some "SESH", accountId := some "ACCT",
      nAuth := 1, nLogin := 1, nRead := 0, nWrite := 0 }
    "SESH" "boom" 0 rfl rfl
  exact ⟨h.1, (h.2 [] 0 [mkReading "/Date(300)/"]).1⟩

theorem mem_ledgerAdd_of_mem {k a : Int} {L : List Int} (h : k ∈ L) :
    k ∈ ledgerAdd L a := by
  unfold ledgerAdd
  split
  · exact h
  · exact List.mem_append_left _ h

theorem mem_ledgerAdd_self (a : Int) (L : List Int) : a ∈ ledgerAdd L a := by
  unfold ledgerAdd
  split
  · assumption
  · exact List.mem_append_right _ (List.mem_singleton.mpr rfl)

theorem mem_foldl_ledgerAdd_of_mem (f : Reading → Int) (rs : List Reading)
    {L : List Int} {k : Int} (h : k ∈ L) :
    k ∈ rs.foldl (fun acc r => ledgerAdd acc (f r)) L := by
  induction rs generalizing L with
  | nil => exact h
  | cons r t ih => exact ih (mem_ledgerAdd_of_mem h)

theorem mem_foldl_ledgerAdd_of_mem_list (f : Reading → Int) :
    ∀ (rs : List Reading) (L : List Int) (r : Reading), r ∈ rs →
      f r ∈ rs.foldl (fun acc r => ledgerAdd acc (f r)) L := by
  intro rs
  induction rs with
  | nil => intro L r h; cases h
  | cons a t ih =>
      intro L r h
      rcases List.mem_cons.mp h with h | h
      · subst h
        exact mem_foldl_ledgerAdd_of_mem f t (mem_ledgerAdd_self (f r) L)
      · exact ih (ledgerAdd L (f a)) r h

theorem sync_ok_write_mem_ledger (L : List Int) (now : Int) (rs : List Reading)
    (h : ∀ r ∈ rs, now - dayMs < extractTimestamp r.WT) :
    ∀ r ∈ rs, extractTimestamp r.WT ∈ (sync L now (Except.ok rs) (Except.ok ())).ledger := by
  intro r hr
  unfold sync
  by_cases h0 : rs.length = 0
  · rw [List.length_eq_zero.mp h0] at hr
    cases hr
  · simp only [h0, if_false]
    by_cases h1 : (rs.filter fun r => ! decide (extractTimestamp r.WT ∈ L)).length = 0
    · simp only [h1, if_true, ite_true]
      have hnil : (rs.filter fun r => ! decide (extractTimestamp r.WT ∈ L)) = [] :=
        List.length_eq_zero.mp h1
      have := List.filter_eq_nil_iff.mp hnil r hr
      simpa using this
    · simp only [h1, if_false, ite_false]
      show extractTimestamp r.WT ∈ cleanupOldTimestamps now _
      have hmem : extractTimestamp r.WT ∈
          (rs.filter fun r => ! decide (extractTimestamp r.WT ∈ L)).foldl
            (fun acc r => ledgerAdd acc (extractTimestamp r.WT)) L := by
        by_cases hk : extractTimestamp r.WT ∈ L
        · exact mem_foldl_ledgerAdd_of_mem _ _ hk
        · have hrf : r ∈ rs.filter fun r => ! decide (extractTimestamp r.WT ∈ L) :=
            List.mem_filter.mpr ⟨hr, by simpa using hk⟩
          exact mem_foldl_ledgerAdd_of_mem_list (fun r => extractTimestamp r.WT) _ L r hrf
      exact List.mem_filter.mpr ⟨hmem, by simpa using h r hr⟩

theorem sync_writeCount_zero_of_all_mem (L : List Int) (now : Int)
    (rs : List Reading) (w : Except String Unit)
    (h : ∀ r ∈ rs, extractTimestamp r.WT ∈ L) :
    (sync L now (Except.ok rs) w).result.writeCount = 0 := by
  unfold sync
  by_cases h0 : rs.length = 0
  · simp [h0]
  · have hnil : (rs.filter fun r => ! decide (extractTimestamp r.WT ∈ L)) = [] := by
      apply List.filter_eq_nil_iff.mpr
      intro r hr
      simpa using h r hr
    simp [h0, hnil]

/-- C7 counterexample: a source dataset whose single reading carries key 5 and
a cycle time past 24 hours after it; the key is pruned immediately after the
first cycle's successful write, so the second consecutive cycle re-writes the
same reading (writeCount 1, not 0). -/
theorem second_cycle_rewrites_old_reading :
    (sync (sync [] 200000000 (Except.ok [mkReading "/Date(5)/"]) (Except.ok ())).ledger
        200000000 (Except.ok [mkReading "/Date(5)/"]) (Except.ok ())).result.writeCount
      = 1 := by decide

/-- C7 amended: two consecutive cycles on an unchanged source dataset, the
first one's write succeeding, yield writeCount 0 on the second cycle, provided
every reading's derived key lies within the trailing 24-hour window of the
first cycle's time (keys at or older than now minus 24 hours are pruned right
after the first write and would be re-transferred). -/
theorem idempotence_within_window (L : List Int) (now now2 : Int)
    (rs : List Reading) (w2 : Except String Unit)
    (h : ∀ r ∈ rs, now - dayMs < extractTimestamp r.WT) :
    (sync (sync L now (Except.ok rs) (Except.ok ())).ledger now2
        (Except.ok rs) w2).result.writeCount = 0 :=
  sync_writeCount_zero_of_all_mem _ _ _ _ (sync_ok_write_mem_ledger L now rs h)

/-- C7 witness: a fresh dataset (key 100, cycle time 0) is fully deduplicated
by the second cycle. -/
theorem idempotence_within_window_witness :
    (sync (sync [] 0 (Except.ok [mkReading "/Date(100)/"]) (Except.ok ())).ledger 0
        (Except.ok [mkReading "/Date(100)/"]) (Except.ok ())).result.writeCount = 0 :=
  idempotence_within_window [] 0 0 [mkReading "/Date(100)/"] (Except.ok ())
    (by intro r hr; fin_cases hr; decide)

theorem firstDigitRun_spec (l : List Char) :
    (match firstDigitRun l with
      | some ds => ((parseDigits ds : Nat) : Int)
      | none => 0)
      = (let ds := (l.dropWhile (fun c => ! c.isDigit)).takeWhile Char.isDigit
         if ds.isEmpty then 0 else ((parseDigits ds : Nat) : Int)) := by
  induction l with
  | nil => rfl
  | cons c t ih =>
      by_cases hc : c.isDigit
      · simp [firstDigitRun, hc, List.dropWhile_cons, List.takeWhile_cons, List.isEmpty]
      · simpa [firstDigitRun, hc, List.dropWhile_cons] using ih

theorem extractTimestamp_digitless_eq_zero (s : String)
    (h : ∀ c ∈ s.data, c.isDigit = false) : extractTimestamp s = 0 := by
  have hnone : ∀ l : List Char, (∀ c ∈ l, c.isDigit = false) → firstDigitRun l = none := by
    intro l
    induction l with
    | nil => intro _; rfl
    | cons c t ih =>
        intro hl
        have hc := hl c (List.mem_cons_self c t)
        simp only [firstDigitRun, hc, if_false]
        exact ih fun d hd => hl d (List.mem_cons_of_mem c hd)
  simp [extractTimestamp, hnone s.data h]

/-- C10 counterexample: at cycle time 200000000 ms (more than 24 hours past the
epoch) the key 0 of a digit-less reading is pruned right after the first
cycle's successful write, so a later digit-less reading is written again
(writeCount 1, skippedCount 0) instead of being skipped as a duplicate. -/
theorem digitless_rewritten_after_prune :
    (sync (sync [] 200000000 (Except.ok [mkReading "sensor-A"]) (Except.ok ())).ledger
        200000000 (Except.ok [mkReading "later-B"]) (Except.ok ())).result.writeCount = 1
    ∧ (sync (sync [] 200000000 (Except.ok [mkReading "sensor-A"]) (Except.ok ())).ledger
        200000000 (Except.ok [mkReading "later-B"]) (Except.ok ())).result.skippedCount
      = 0 := by
  decide

/-- C10 amended: the derived dedup key of any string is the first run of
decimal digits parsed as an integer, and 0 for a digit-less string, so all
digit-less timestamp encodings collapse onto the single key 0; once one such
reading has been synced, a later cycle skips any other digit-less reading as a
duplicate provided key 0 still lies within the trailing 24-hour pruning window
of the first cycle's time (the cycle time is less than 24 hours past the
epoch); at later cycle times key 0 is pruned right after the write and the
later digit-less reading is re-transferred. -/
theorem key_derivation_collapse_amended :
    (∀ s : String, extractTimestamp s = claimDerivedKey s)
    ∧ (∀ s : String, (∀ c ∈ s.data, c.isDigit = false) → extractTimestamp s = 0)
    ∧ ∀ (L : List Int) (now now2 : Int) (s1 s2 : String) (w2 : Except String Unit),
        (∀ c ∈ s1.data, c.isDigit = false) →
        (∀ c ∈ s2.data, c.isDigit = false) →
        now < dayMs →
        (sync (sync L now (Except.ok [mkReading s1]) (Except.ok ())).ledger now2
            (Except.ok [mkReading s2]) w2).result.skippedCount = 1
        ∧ (sync (sync L now (Except.ok [mkReading s1]) (Except.ok ())).ledger now2
            (Except.ok [mkReading s2]) w2).result.writeCount = 0 := by
  refine ⟨?_, extractTimestamp_digitless_eq_zero, ?_⟩
  · intro s
    simpa [extractTimestamp, claimDerivedKey] using firstDigitRun_spec s.data
  · intro L now now2 s1 s2 w2 h1 h2 hn
    have hk1 : extractTimestamp (mkReading s1).WT = 0 :=
      extractTimestamp_digitless_eq_zero s1 h1
    have hk2 : extractTimestamp (mkReading s2).WT = 0 :=
      extractTimestamp_digitless_eq_zero s2 h2
    have h0mem : (0 : Int) ∈ (sync L now (Except.ok [mkReading s1]) (Except.ok ())).ledger := by
      have hmem := sync_ok_write_mem_ledger L now [mkReading s1]
        (by
          intro r hr
          fin_cases hr
          rw [hk1]
          omega)
        (mkReading s1) (List.mem_singleton.mpr rfl)
      rwa [hk1] at hmem
    constructor
    · rw [sync_skippedCount]
      simp [hk2, h0mem]
    · apply sync_writeCount_zero_of_all_mem
      intro r hr
      fin_cases hr
      rw [hk2]
      exact h0mem

/-- C10 witness: a digit-less string maps to key 0, and at cycle time 0 (inside
the 24-hour window) the later digit-less reading is indeed skipped. -/
theorem key_derivation_collapse_amended_witness :
    extractTimestamp "nodigits" = 0
    ∧ ((sync (sync [] 0 (Except.ok [mkReading "sensor-A"]) (Except.ok ())).ledger 0
          (Except.ok [mkReading "later-B"]) (Except.ok ())).result.skippedCount = 1
       ∧ (sync (sync [] 0 (Except.ok [mkReading "sensor-A"]) (Except.ok ())).ledger 0
          (Except.ok [mkReading "later-B"]) (Except.ok ())).result.writeCount = 0) :=
  ⟨key_derivation_collapse_amended.2.1 "nodigits" (by decide),
   key_derivation_collapse_amended.2.2 [] 0 0 "sensor-A" "later-B" (Except.ok ())
     (by decide) (by decide) (by decide)⟩

theorem authenticate_fresh_ok (env : Env) (st : CState)
    (hA : st.accountId = none)
    (hA1 : respOk (env.authResp st.nAuth) = true)
    (hA2 : ¬ stripQuotes (env.authResp st.nAuth).text = zeroUuid)
    (hL1 : respOk (env.loginResp st.nLogin) = true)
    (hL2 : ¬ stripQuotes (env.loginResp st.nLogin).text = zeroUuid) :
    authenticate env st =
      (Except.ok (stripQuotes (env.loginResp st.nLogin).text),
       { st with sessionId := some (stripQuotes (env.loginResp st.nLogin).text),
                 accountId := some (stripQuotes (env.authResp st.nAuth).text),
                 nAuth := st.nAuth + 1, nLogin := st.nLogin + 1 }) := by
  unfold authenticate authenticateCore
  simp [hA, hA1, hA2, hL1, hL2]

theorem read_expiry_heals (env : Env) (st : CState) (fuel : Nat)
    (sid t0 t1 : String) (m0 : Option String) (j0 : Option (List Reading))
    (c1 : Option String) (m1 : Option String) (rs : List Reading)
    (hs : st.sessionId = some sid)
    (h0 : env.readResp st.nRead =
      { status := 500, text := t0, code := some "SessionIdNotFound",
        message := m0, jsonArray := j0 })
    (hA1 : respOk (env.authResp st.nAuth) = true)
    (hA2 : ¬ stripQuotes (env.authResp st.nAuth).text = zeroUuid)
    (hL1 : respOk (env.loginResp st.nLogin) = true)
    (hL2 : ¬ stripQuotes (env.loginResp st.nLogin).text = zeroUuid)
    (h1 : env.readResp (st.nRead + 1) =
      { status := 200, text := t1, code := c1, message := m1, jsonArray := some rs }) :
    readGlucoseValues env (fuel + 2) st =
      (Except.ok rs,
       { sessionId := some (stripQuotes (env.loginResp st.nLogin).text),
         accountId := some (stripQuotes (env.authResp st.nAuth).text),
         nAuth := st.nAuth + 1, nLogin := st.nLogin + 1,
         nRead := st.nRead + 2, nWrite := st.nWrite }) := by
  have hauth := authenticate_fresh_ok env
    { st with nRead := st.nRead + 1, sessionId := none, accountId := none }
    rfl hA1 hA2 hL1 hL2
  show readGlucoseValues env (fuel + 1 + 1) st = _
  simp only [readGlucoseValues, hs, h0]
  simp only [respSessionError, hauth]
  simp [h1, respOk]

theorem write_expiry_heals (env : Env) (st : CState) (fuel : Nat)
    (sid t0 t1 : String) (m0 : Option String) (j0 : Option (List Reading))
    (c1 : Option String) (m1 : Option String) (j1 : Option (List Reading))
    (hs : st.sessionId = some sid)
    (h0 : env.writeResp st.nWrite =
      { status := 500, text := t0, code := some "SessionIdNotFound",
        message := m0, jsonArray := j0 })
    (hA1 : respOk (env.authResp st.nAuth) = true)
    (hA2 : ¬ stripQuotes (env.authResp st.nAuth).text = zeroUuid)
    (hL1 : respOk (env.loginResp st.nLogin) = true)
    (hL2 : ¬ stripQuotes (env.loginResp st.nLogin).text = zeroUuid)
    (h1 : env.writeResp (st.nWrite + 1) =
      { status := 200, text := t1, code := c1, message := m1, jsonArray := j1 }) :
    writeGlucoseValues env (fuel + 2) st =
      (Except.ok true,
       { sessionId := some (stripQuotes (env.loginResp st.nLogin).text),
         accountId := some (stripQuotes (env.authResp st.nAuth).text),
         nAuth := st.nAuth + 1, nLogin := st.nLogin + 1,
         nRead := st.nRead, nWrite := st.nWrite + 2 }) := by
  have hauth := authenticate_fresh_ok env
    { st with nWrite := st.nWrite + 1, sessionId := none, accountId := none }
    rfl hA1 hA2 hL1 hL2
  show writeGlucoseValues env (fuel + 1 + 1) st = _
  simp only [writeGlucoseValues, hs, h0]
  simp only [respSessionError, hauth]
  simp [h1, respOk]

/-- C3: a data operation answered 500 with code SessionIdNotFound clears both
sessionId and accountId, reauthenticates (one fresh account-authenticate and
one login — exactly one additional pair, witnessed by the request counters),
retries the original operation exactly once more, and returns the retried
request's outcome; the expiry is never surfaced to the caller.  Stated for the
read operation and, symmetrically, for the write operation. -/
theorem session_expiry_recovery :
    (∀ (env : Env) (st : CState) (fuel : Nat) (sid t0 t1 : String)
        (m0 : Option String) (j0 : Option (List Reading)) (c1 : Option String)
        (m1 : Option String) (rs : List Reading),
      st.sessionId = some sid →
      env.readResp st.nRead =
        { status := 500, text := t0, code := some "SessionIdNotFound",
          message := m0, jsonArray := j0 } →
      respOk (env.authResp st.nAuth) = true →
      ¬ stripQuotes (env.authResp st.nAuth).text = zeroUuid →
      respOk (env.loginResp st.nLogin) = true →
      ¬ stripQuotes (env.loginResp st.nLogin).text = zeroUuid →
      env.readResp (st.nRead + 1) =
        { status := 200, text := t1, code := c1, message := m1, jsonArray := some rs } →
      readGlucoseValues env (fuel + 2) st =
        (Except.ok rs,
         { sessionId := some (stripQuotes (env.loginResp st.nLogin).text),
           accountId := some (stripQuotes (env.authResp st.nAuth).text),
           nAuth := st.nAuth + 1, nLogin := st.nLogin + 1,
           nRead := st.nRead + 2, nWrite := st.nWrite }))
    ∧ (∀ (env : Env) (st : CState) (fuel : Nat) (sid t0 t1 : String)
        (m0 : Option String) (j0 : Option (List Reading)) (c1 : Option String)
        (m1 : Option String) (j1 : Option (List Reading)),
      st.sessionId = some sid →
      env.writeResp st.nWrite =
        { status := 500, text := t0, code := some "SessionIdNotFound",
          message := m0, jsonArray := j0 } →
      respOk (env.authResp st.nAuth) = true →
      ¬ stripQuotes (env.authResp st.nAuth).text = zeroUuid →
      respOk (env.loginResp st.nLogin) = true →
      ¬ stripQuotes (env.loginResp st.nLogin).text = zeroUuid →
      env.writeResp (st.nWrite + 1) =
        { status := 200, text := t1, code := c1, message := m1, jsonArray := j1 } →
      writeGlucoseValues env (fuel + 2) st =
        (Except.ok true,
         { sessionId := some (stripQuotes (env.loginResp st.nLogin).text),
           accountId := some (stripQuotes (env.authResp st.nAuth).text),
           nAuth := st.nAuth + 1, nLogin := st.nLogin + 1,
           nRead := st.nRead, nWrite := st.nWrite + 2 })) :=
  ⟨fun env st fuel sid t0 t1 m0 j0 c1 m1 rs hs h0 hA1 hA2 hL1 hL2 h1 =>
      read_expiry_heals env st fuel sid t0 t1 m0 j0 c1 m1 rs hs h0 hA1 hA2 hL1 hL2 h1,
   fun env st fuel sid t0 t1 m0 j0 c1 m1 j1 hs h0 hA1 hA2 hL1 hL2 h1 =>
      write_expiry_heals env st fuel sid t0 t1 m0 j0 c1 m1 j1 hs h0 hA1 hA2 hL1 hL2 h1⟩

/-- C3 witness: the concrete recovering remote; the client that had issued one
authenticate+login pair ends with exactly two, two read requests, and the
retried response's single reading. -/
theorem session_expiry_recovery_witness :
    readGlucoseValues envRecovery 5 stRecovery =
      (Except.ok [mkReading "/Date(42)/"],
       { sessionId := some "SESH2", accountId := some "ACCT",
         nAuth := 2, nLogin := 2, nRead := 2, nWrite := 0 }) := by
  simpa using session_expiry_recovery.1 envRecovery stRecovery 3 "S" "" ""
    (some "Session expired") none none none [mkReading "/Date(42)/"]
    rfl rfl (by decide) (by decide) (by decide) (by decide) rfl

/-- C5 counterexample: accountId, set to A by the first successful
authentication, is cleared again when a read hits session expiry — here the
subsequent re-authentication fails, and the client is left with accountId
absent, contradicting set-once-per-process-lifetime. -/
theorem accountId_cleared_on_expiry :
    (authenticate envExpiryAuthFail DexcomClient.init).2.accountId = some "A"
    ∧ (readGlucoseValues envExpiryAuthFail 2
        (authenticate envExpiryAuthFail DexcomClient.init).2).2.accountId = none := by
  decide

/-- C5 amended: accountId and sessionId are both absent at construction; when
the remote signals session invalidity, the client clears both accountId and
sessionId and re-derives both through a full re-authentication — one fresh
account-authenticate and login pair per expiry — rather than clearing only
sessionId and reusing the cached accountId. -/
theorem account_token_lifecycle_amended :
    DexcomClient.init.accountId = none ∧ DexcomClient.init.sessionId = none
    ∧ ∀ (env : Env) (st : CState) (fuel : Nat) (sid t0 t1 : String)
        (m0 : Option String) (j0 : Option (List Reading)) (c1 : Option String)
        (m1 : Option String) (rs : List Reading),
      st.sessionId = some sid →
      env.readResp st.nRead =
        { status := 500, text := t0, code := some "SessionIdNotFound",
          message := m0, jsonArray := j0 } →
      respOk (env.authResp st.nAuth) = true →
      ¬ stripQuotes (env.authResp st.nAuth).text = zeroUuid →
      respOk (env.loginResp st.nLogin) = true →
      ¬ stripQuotes (env.loginResp st.nLogin).text = zeroUuid →
      env.readResp (st.nRead + 1) =
        { status := 200, text := t1, code := c1, message := m1, jsonArray := some rs } →
      (readGlucoseValues env (fuel + 2) st).2.accountId
          = some (stripQuotes (env.authResp st.nAuth).text)
        ∧ (readGlucoseValues env (fuel + 2) st).2.nAuth = st.nAuth + 1
        ∧ (readGlucoseValues env (fuel + 2) st).2.nLogin = st.nLogin + 1 := by
  refine ⟨rfl, rfl, ?_⟩
  intro env st fuel sid t0 t1 m0 j0 c1 m1 rs hs h0 hA1 hA2 hL1 hL2 h1
  rw [read_expiry_heals env st fuel sid t0 t1 m0 j0 c1 m1 rs hs h0 hA1 hA2 hL1 hL2 h1]
  exact ⟨rfl, rfl, rfl⟩

/-- C5 witness for the amended lifecycle: on the concrete recovering remote,
the healed client carries the freshly derived account token and exactly one
more authenticate and login each. -/
theorem account_token_lifecycle_amended_witness :
    (readGlucoseValues envRecovery 4 stRecovery).2.accountId = some "ACCT"
    ∧ (readGlucoseValues envRecovery 4 stRecovery).2.nAuth = 2
    ∧ (readGlucoseValues envRecovery 4 stRecovery).2.nLogin = 2 := by
  simpa using account_token_lifecycle_amended.2.2 envRecovery stRecovery 2 "S" "" ""
    (some "Session expired") none none none [mkReading "/Date(42)/"]
    rfl rfl (by decide) (by decide) (by decide) (by decide) rfl

/-- C6: when account-authenticate answers with the all-zero sentinel UUID,
authenticate throws invalid credentials and the login request counter is
untouched — the session-login step is never attempted. -/
theorem sentinel_invalid_credentials (env : Env) (st : CState)
    (hA : st.accountId = none)
    (hok : respOk (env.authResp st.nAuth) = true)
    (hz : stripQuotes (env.authResp st.nAuth).text = zeroUuid) :
    authenticate env st =
      (Except.error "Authentication error: Invalid credentials",
       { st with nAuth := st.nAuth + 1, accountId := some zeroUuid }) := by
  unfold authenticate authenticateCore
  simp [hA, hok, hz]

/-- C6 witness: the concrete sentinel-answering remote at a fresh client. -/
theorem sentinel_invalid_credentials_witness :
    authenticate envZeroAuth DexcomClient.init =
      (Except.error "Authentication error: Invalid credentials",
       { DexcomClient.init with nAuth := 1, accountId := some zeroUuid }) :=
  sentinel_invalid_credentials envZeroAuth DexcomClient.init rfl (by decide) (by decide)

